import Mathlib

/-!
Shallow embedding of the jabali mongoose-plugin suite (Registerable,
Authenticable, Confirmable, Recoverable) over an explicit account store.

Modelling conventions:
* timestamps are integers at day granularity (`Int`), `none` standing for a
  JavaScript `null` date; `now` is passed explicitly to every operation;
* the document store is a `List Account`; mongoose `findOne` is `List.find?`
  and `document.save()` replaces the document with the same `id`;
* every operation returns `Except JError Account × List Account`: the promise
  outcome together with the store after the call (unchanged on rejection
  paths that never reach `save`);
* the host-implemented `sendJabaliNotification` callback is passed in as a
  parameter `notify : Except JError Unit`, its outcome on this call;
* the random 6-digit numeric token produced by the randomatic library is
  passed in as a parameter `tok`.
-/

/-- Error objects produced by the http-errors createError(status, message) helper. -/
structure JError where
  status : Nat
  message : String
deriving Repr, DecidableEq

/-- The account document, with the fields contributed by the Registerable,
Authenticable, Confirmable and Recoverable mixins.  `extra` models further
host-schema fields addressable by name (used for custom authentication
aliases).  `id` is the mongoose document identity used by `save`. -/
structure Account where
  id : Nat
  email : Option String
  phoneNumber : Option String
  password : String
  emailVerifiedAt : Option Int
  phoneVerifiedAt : Option Int
  confirmationToken : Option String
  confirmationTokenExpiryAt : Option Int
  confirmedAt : Option Int
  confirmationSentAt : Option Int
  autoConfirm : Bool
  recoveryToken : Option String
  recoveryTokenExpiryAt : Option Int
  recoverySentAt : Option Int
  recoveredAt : Option Int
  registeredAt : Option Int
  unregisteredAt : Option Int
  extra : List (String × String)
deriving Repr, DecidableEq

namespace Utils

/-- Modelled from the external bcryptjs dependency: `Utils.hash` bcrypt-hashes a
token.  We model only the format invariant the claims rely on: a bcrypt hash
string always carries the `$2a$<cost>$` version/cost prefix, so it is never
equal to the plain input it hashes. -/
def hash (token : String) : String := "$2a$10$" ++ token

/-- Modelled from the external bcryptjs dependency: `Utils.compare` checks a
plain value against a bcrypt hash; with the deterministic hash model above this
is equality with the re-computed hash. -/
def compare (value hashed : String) : Bool := hashed == hash value

/-- Source `isAfter(first, second)`: `moment(second).isAfter(moment(first))`.
A `null` second date yields an invalid moment, for which `isAfter` is false. -/
def isAfter (first : Int) (second : Option Int) : Bool :=
  match second with
  | none => false
  | some s => first < s

/-- Source `addDays(offset, date)` (date always supplied in our model). -/
def addDays (offset : Int) (date : Int) : Int := date + offset

/-- Source `daysDiff(startDate, endDate)`: 0 when either date is missing,
otherwise the moment diff of start minus end in whole days; exact at day
granularity. -/
def daysDiff (startDate endDate : Option Int) : Int :=
  match startDate, endDate with
  | some s, some e => s - e
  | _, _ => 0

end Utils

/-- Character-list lowering used to model JavaScript case-insensitive
comparisons (toLowerCase, the case-insensitive RegExp flag). -/
def lowerChars (s : String) : List Char := s.toList.map Char.toLower

/-- String lowering, modelling JavaScript `String.prototype.toLowerCase`. -/
def toLowerStr (s : String) : String := String.mk (lowerChars s)

/-- Contiguous-occurrence test: does `pattern` occur as a contiguous run
inside `text`? -/
def strContains (text pattern : List Char) : Bool :=
  match text with
  | [] => pattern == []
  | _ :: rest => pattern.isPrefixOf text || strContains rest pattern

/-- Modelled JavaScript text.match over a case-insensitive RegExp(pattern) for
metacharacter-free patterns (the stored tokens are plain 6-digit strings):
a case-insensitive substring search. -/
def tokenMatch (pattern text : String) : Bool :=
  strContains (lowerChars text) (lowerChars pattern)

/-- Token test against a possibly `null` stored token, as in
`confirmable.confirmationToken ? confirmable.confirmationToken.match(regex) : false`
and in the mongo `$regex` condition of `passwordReset` (a `$regex` condition
never matches a `null` field). -/
def tokenMatchOpt (pattern : String) (stored : Option String) : Bool :=
  match stored with
  | some t => tokenMatch pattern t
  | none => false

/-- Modelled from the external `validator.isEmail`; the claims depend only on
which lookup branch is taken, not on exact e-mail syntax. -/
def isEmailStr (s : String) : Bool := s.toList.contains '@'

/-- Field access by name, modelling mongoose document field lookup for the
credential objects `{ [field]: username }` built from the alias list. -/
def getField (a : Account) (f : String) : Option String :=
  if f == "email" then a.email
  else if f == "phoneNumber" then a.phoneNumber
  else (a.extra.find? (fun p => p.1 == f)).map (fun p => p.2)

/-- Document save: replace the stored document carrying the same `id`. -/
def saveAccount (doc : Account) (store : List Account) : List Account :=
  store.map (fun a => if a.id == doc.id then doc else a)

/-- The effective alias list after deepmerge(defaults, opts): the deepmerge
default array merge concatenates target then source, so a supplied
opts.aliases = L yields email :: L, and absence yields the default list. -/
def effectiveAliases (optAliases : Option (List String)) : List String :=
  match optAliases with
  | none => ["email"]
  | some l => ["email"] ++ l

/-- Source `credentials.map(findOne)` followed by `result.find(u => u !== null)`:
per alias field, the first stored account whose field equals `username`; then
the first non-null lookup result in alias order. -/
def findByAliases (aliases : List String) (username : String)
    (store : List Account) : Option Account :=
  (aliases.map (fun f => store.find? (fun a => getField a f == some username))).findSome? id

/-- Source `schema.methods.confirmableBlockAuthenticationMessage` (Confirmable):
empty message when confirmed; otherwise blocked outright when
`allow_unconfirmed_access_for` is 0, or when the day difference between now and
`confirmationSentAt` exceeds it. -/
def confirmableBlockAuthenticationMessage (allow : Int) (now : Int)
    (a : Account) : String :=
  if a.confirmedAt.isSome then ""
  else if allow == 0 then "Unconfirmed account"
  else if Utils.daysDiff (some now) a.confirmationSentAt > allow then "Unconfirmed account"
  else ""

/-- Block message as seen by `authenticate`: the Authenticable default returns
the empty string and is overridden when the Confirmable mixin is plugged with
its `allow_unconfirmed_access_for` option (`allow = some n`). -/
def blockMessage (allow : Option Int) (now : Int) (a : Account) : String :=
  match allow with
  | none => ""
  | some n => confirmableBlockAuthenticationMessage n now a

/-- Source `schema.statics.authenticate` (src/lib/authenticable/index.js):
first non-null alias lookup, confirmable block check, then bcrypt compare. -/
def authenticate (optAliases : Option (List String)) (allow : Option Int)
    (now : Int) (username password : String) (store : List Account) :
    Except JError Account × List Account :=
  match findByAliases (effectiveAliases optAliases) username store with
  | none => (.error ⟨404, "User not found"⟩, store)
  | some a =>
    if blockMessage allow now a ≠ "" then
      (.error ⟨401, blockMessage allow now a⟩, store)
    else if Utils.compare password a.password then (.ok a, store)
    else (.error ⟨400, "Invalid user password"⟩, store)

/-- Source `schema.methods.changePassword` (Authenticable): reject empty new
password, validate (with default options every password validator passes on a
non-empty value), hash, set and save. -/
def changePassword (a : Account) (newPassword : String) (store : List Account) :
    Except JError Account × List Account :=
  if newPassword == "" then
    (.error ⟨400, "New password must be provided"⟩, store)
  else
    let a' := { a with password := Utils.hash newPassword }
    (.ok a', saveAccount a' store)

/-- Source `schema.methods.generateConfirmationToken` (Confirmable): set expiry
`token_life` days ahead, store the fresh token, stamp `confirmationSentAt`,
clear `confirmedAt`. -/
def generateConfirmationToken (token_life now : Int) (tok : String)
    (a : Account) : Account :=
  { a with
    confirmationTokenExpiryAt := some (Utils.addDays token_life now),
    confirmationToken := some tok,
    confirmationSentAt := some now,
    confirmedAt := none }

/-- Credential predicate of the findOne inside Confirmable.confirm: by lowercased
e-mail when the username is an e-mail, otherwise by phone number. -/
def confirmCred (username : String) (a : Account) : Bool :=
  if isEmailStr username then a.email == some (toLowerStr username)
  else a.phoneNumber == some username

/-- The `findOne` lookup performed by `Confirmable.confirm`. -/
def confirmFindOne (username : String) (store : List Account) : Option Account :=
  store.find? (confirmCred username)

/-- Source `schema.statics.confirm` (Confirmable): input guard, account lookup,
case-insensitive regex token match, expiry gate, then mark verified/confirmed,
clear both confirmation token fields and save. -/
def confirm (now : Int) (username confirmationToken : String)
    (store : List Account) : Except JError Account × List Account :=
  if username == "" || confirmationToken == "" then
    (.error ⟨400, "Invalid confirmation details"⟩, store)
  else
    match confirmFindOne username store with
    | none => (.error ⟨404, "User not found"⟩, store)
    | some a =>
      if !(tokenMatchOpt confirmationToken a.confirmationToken) then
        (.error ⟨400, "Invalid confirmation token"⟩, store)
      else if !(Utils.isAfter now a.confirmationTokenExpiryAt) then
        (.error ⟨400, "Token has expired"⟩, store)
      else
        let a' := { a with
          emailVerifiedAt :=
            if isEmailStr username then some now else a.emailVerifiedAt,
          phoneVerifiedAt :=
            if isEmailStr username then a.phoneVerifiedAt else some now,
          confirmedAt := some now,
          confirmationToken := none,
          confirmationTokenExpiryAt := none }
        (.ok a', saveAccount a' store)

/-- The document as it stands when `sendConfirmationInstructions` (instance)
reaches the notification call: regenerated when the current confirmation token
is expired (or its expiry is null), untouched otherwise. -/
def confirmInstrDoc (token_life now : Int) (tok : String) (a : Account) : Account :=
  if !(Utils.isAfter now a.confirmationTokenExpiryAt) then
    generateConfirmationToken token_life now tok a
  else a

/-- Source `schema.methods.sendConfirmationInstructions` (Confirmable): resolve
immediately when already confirmed; otherwise regenerate an expired token, send
the notification, and only after it resolves call `save`. -/
def sendConfirmationInstructions (token_life now : Int) (tok : String)
    (notify : Except JError Unit) (a : Account) (store : List Account) :
    Except JError Account × List Account :=
  if a.confirmedAt.isSome then (.ok a, store)
  else
    match notify with
    | .error e => (.error e, store)
    | .ok _ => (.ok (confirmInstrDoc token_life now tok a),
        saveAccount (confirmInstrDoc token_life now tok a) store)

/-- Source `schema.methods.generateRecoveryToken` (Recoverable). -/
def generateRecoveryToken (token_life now : Int) (tok : String)
    (a : Account) : Account :=
  { a with
    recoveryToken := some tok,
    recoverySentAt := some now,
    recoveryTokenExpiryAt := some (Utils.addDays token_life now),
    recoveredAt := none }

/-- Source `schema.methods.sendPasswordResetInstructions` (Recoverable):
resolve immediately when already recovered; otherwise send the notification and
only after it resolves call `save`. -/
def sendPasswordResetInstructions (notify : Except JError Unit) (a : Account)
    (store : List Account) : Except JError Account × List Account :=
  if a.recoveredAt.isSome then (.ok a, store)
  else
    match notify with
    | .error e => (.error e, store)
    | .ok _ => (.ok a, saveAccount a store)

/-- Source `schema.statics.requestPasswordReset` (Recoverable): first non-null
alias lookup, 404 when absent, generate a recovery token and send the reset
instructions. -/
def requestPasswordReset (optAliases : Option (List String)) (token_life now : Int)
    (tok : String) (notify : Except JError Unit) (username : String)
    (store : List Account) : Except JError Account × List Account :=
  match findByAliases (effectiveAliases optAliases) username store with
  | none => (.error ⟨404, "Account does not exist"⟩, store)
  | some a =>
    sendPasswordResetInstructions notify (generateRecoveryToken token_life now tok a) store

/-- The per-alias `findOne` lookups of `Recoverable.passwordReset`: credential
`{ [field]: username, recoveryToken: { $regex: token } }` per alias field, then
the first non-null result in alias order. -/
def recoveryFindOne (aliases : List String) (username recoveryToken : String)
    (store : List Account) : Option Account :=
  (aliases.map (fun f => store.find? (fun a =>
    getField a f == some username && tokenMatchOpt recoveryToken a.recoveryToken))).findSome? id

/-- Source `schema.statics.passwordReset` (Recoverable): input guard, regex
lookup by alias + recovery token, expiry gate, then hash the new password, set
it, stamp `recoveredAt` and save.  The recovery token fields are not touched. -/
def passwordReset (optAliases : Option (List String)) (now : Int)
    (username newPassword recoveryToken : String) (store : List Account) :
    Except JError Account × List Account :=
  if username == "" || newPassword == "" || recoveryToken == "" then
    (.error ⟨400, "Invalid recovery details"⟩, store)
  else
    match recoveryFindOne (effectiveAliases optAliases) username recoveryToken store with
    | none => (.error ⟨404, "Recovery details does not match our records"⟩, store)
    | some a =>
      if !(Utils.isAfter now a.recoveryTokenExpiryAt) then
        (.error ⟨400, "Recovery token expired"⟩, store)
      else
        let a' := { a with
          password := Utils.hash newPassword,
          recoveredAt := some now }
        (.ok a', saveAccount a' store)

/-- The document built by `register` before its first `save`: password hashed,
default `preSignup` (identity) applied, confirmation state derived when the
Confirmable mixin is plugged, `registeredAt` stamped. -/
def registerDoc (token_life now : Int) (tok : String) (confirmablePlugged : Bool)
    (profile : Account) : Account :=
  let u1 := { profile with password := Utils.hash profile.password }
  let u2 :=
    if confirmablePlugged then
      (if u1.autoConfirm then { u1 with confirmedAt := some now }
       else generateConfirmationToken token_life now tok u1)
    else u1
  { u2 with registeredAt := some now }

/-- Source `schema.statics.register` (Registerable): validate (the `password`
field is required; with default options the remaining validators pass), build
the document (`registerDoc`), save it as a new document, and send confirmation
instructions when a token was generated. -/
def register (token_life now : Int) (tok : String) (confirmablePlugged : Bool)
    (notify : Except JError Unit) (profile : Account) (store : List Account) :
    Except JError Account × List Account :=
  if profile.password == "" then
    (.error ⟨400, "Password is required"⟩, store)
  else
    if (registerDoc token_life now tok confirmablePlugged profile).confirmationToken.isSome then
      sendConfirmationInstructions token_life now tok notify
        (registerDoc token_life now tok confirmablePlugged profile)
        (store ++ [registerDoc token_life now tok confirmablePlugged profile])
    else (.ok (registerDoc token_life now tok confirmablePlugged profile),
        store ++ [registerDoc token_life now tok confirmablePlugged profile])

/-- Source `schema.statics.unregister` (Registerable): `findOne(criteria)`,
stamp `unregisteredAt`, save.  When no account matches, the JavaScript callback
dereferences `null` and the promise rejects with a `TypeError`, which carries
no HTTP status (modelled with status 0). -/
def unregister (now : Int) (criteria : Account → Bool) (store : List Account) :
    Except JError Account × List Account :=
  match store.find? criteria with
  | none => (.error ⟨0, "TypeError"⟩, store)
  | some a =>
    let a' := { a with unregisteredAt := some now }
    (.ok a', saveAccount a' store)

/-! Helper lemmas shared across the verification theorems. -/

theorem strContains_nilPat (l : List Char) : strContains l [] = true := by
  induction l with
  | nil => rfl
  | cons h t ih => simp [strContains, ih]

theorem strContains_append (a x b : List Char) :
    strContains (a ++ (x ++ b)) x = true := by
  induction a with
  | nil =>
    cases x with
    | nil => simpa using strContains_nilPat b
    | cons h t =>
      have hp : (h :: t).isPrefixOf ((h :: t) ++ b) = true := by
        rw [ List.isPrefixOf_iff_prefix]
        exact List.prefix_append _ _
      simp [strContains, hp]
  | cons hd tl ih =>
    simp [strContains, ih]

theorem tokenMatch_of_substr (p s : String) (pre post : List Char)
    (h : s.toList = pre ++ p.toList ++ post) : tokenMatch p s = true := by
  unfold tokenMatch lowerChars
  rw [h]
  rw [List.append_assoc, List.map_append, List.map_append]
  exact strContains_append _ _ _

theorem hash_ne (p : String) : Utils.hash p ≠ p := by
  intro h
  have hlen := congrArg String.length h
  rw [Utils.hash, String.length_append] at hlen
  have h7 : ("$2a$10$" : String).length = 7 := rfl
  rw [h7] at hlen
  omega

theorem blockMessage_cases (allow : Option Int) (now : Int) (a : Account) :
    blockMessage allow now a = "" ∨ blockMessage allow now a = "Unconfirmed account" := by
  unfold blockMessage confirmableBlockAuthenticationMessage
  cases allow with
  | none => left; rfl
  | some n =>
    by_cases h1 : a.confirmedAt.isSome
    · left; simp [h1]
    · by_cases h2 : n == 0
      · right; simp [h1, h2]
      · by_cases h3 : Utils.daysDiff (some now) a.confirmationSentAt > n
        · right; simp [h1, h2, h3]
        · left; simp [h1, h2, h3]

theorem saveAccount_mem_self (doc b : Account) (store : List Account)
    (hb : b ∈ store) (hid : b.id = doc.id) : doc ∈ saveAccount doc store := by
  have := List.mem_map_of_mem (fun a => if a.id == doc.id then doc else a) hb
  simpa [saveAccount, hid] using this

theorem saveAccount_mem_other (doc b : Account) (store : List Account)
    (hb : b ∈ store) (hid : b.id ≠ doc.id) : b ∈ saveAccount doc store := by
  have := List.mem_map_of_mem (fun a => if a.id == doc.id then doc else a) hb
  simpa [saveAccount, hid] using this

/-! Concrete example accounts used by the witness and counterexample theorems. -/

/-- Account with live confirmation and recovery tokens (expiries 10 and 20,
evaluated at `now = 5`) and a custom `username` field. -/
def exA : Account :=
  ⟨1, some "a@x.com", none, Utils.hash "pwA", none, none, some "123456", some 10,
   none, none, false, some "654321", some 20, none, none, none, none,
   [("username", "bob@x.com")]⟩

/-- Confirmed account whose e-mail collides with the username field of `exA`. -/
def exB : Account :=
  ⟨2, some "bob@x.com", none, Utils.hash "pwB", none, none, none, none,
   some 1, none, false, none, none, none, none, none, none, []⟩

/-- Account with an expired recovery token (expiry 3 at `now = 5`) and a
confirmation token whose expiry is null. -/
def exExpired : Account :=
  ⟨3, some "e@x.com", none, Utils.hash "pwE", none, none, some "111111", none,
   none, none, false, some "222222", some 3, none, none, none, none, []⟩

/-- Unconfirmed account with `confirmationSentAt` null. -/
def exProfile : Account :=
  ⟨7, some "p@x.com", none, "plain", none, none, none, none, none, none, false,
   none, none, none, none, none, none, []⟩

/-- Result of confirming `exA` at time 5. -/
def exAc : Account :=
  { exA with emailVerifiedAt := some 5, confirmedAt := some 5,
             confirmationToken := none, confirmationTokenExpiryAt := none }

/-- Result of resetting the password of `exA` at time 5. -/
def exAr : Account :=
  { exA with password := Utils.hash "np1", recoveredAt := some 5 }

/-! Claim C1. -/

/-- C1 (counterexample): the claim that `passwordReset` clears the recovery
token fields is false: resetting the password of `exA` with its valid token
resolves, yet the saved account still carries `recoveryToken = "654321"` and
its expiry, neither of which is null. -/
theorem C1_passwordReset_keeps_token_counterexample :
    ((passwordReset none 5 "a@x.com" "np1" "654321" [exA]).1.toOption.map
        Account.recoveryToken) = some (some "654321") ∧
    ((passwordReset none 5 "a@x.com" "np1" "654321" [exA]).1.toOption.map
        Account.recoveryTokenExpiryAt) = some (some 20) := by
  exact ⟨rfl, rfl⟩

/-- C1 (amended): `Confirmable.confirm` does clear both confirmation token
fields on every account it resolves with, but `Recoverable.passwordReset`
leaves `recoveryToken` and `recoveryTokenExpiryAt` exactly as they were on the
selected account: it only replaces the password and stamps `recoveredAt`. -/
theorem C1_confirm_clears_passwordReset_retains (now : Int)
    (u t np rt : String) (store : List Account) (optA : Option (List String)) :
    (∀ a', (confirm now u t store).1 = .ok a' →
        a'.confirmationToken = none ∧ a'.confirmationTokenExpiryAt = none) ∧
    (∀ a a', recoveryFindOne (effectiveAliases optA) u rt store = some a →
        (passwordReset optA now u np rt store).1 = .ok a' →
        a'.recoveryToken = a.recoveryToken ∧
        a'.recoveryTokenExpiryAt = a.recoveryTokenExpiryAt) := by
  constructor
  · intro a' h
    unfold confirm at h
    split at h
    · simp at h
    · split at h
      · simp at h
      · split at h
        · simp at h
        · split at h
          · simp at h
          · simp only [] at h
            injection h with h
            subst h
            exact ⟨rfl, rfl⟩
  · intro a a' hfind h
    unfold passwordReset at h
    split at h
    · simp at h
    · rw [hfind] at h
      simp only [] at h
      split at h
      · simp at h
      · simp only [] at h
        injection h with h
        subst h
        exact ⟨rfl, rfl⟩

/-- C1 (witness): concrete run at time 5 on `exA`: confirm resolves with the
token fields cleared, and passwordReset resolves with the recovery token fields
untouched. -/
theorem C1_witness :
    ((confirm 5 "a@x.com" "123456" [exA]).1 = .ok exAc) ∧
    (exAc.confirmationToken = none ∧ exAc.confirmationTokenExpiryAt = none) ∧
    (recoveryFindOne (effectiveAliases none) "a@x.com" "654321" [exA] = some exA) ∧
    ((passwordReset none 5 "a@x.com" "np1" "654321" [exA]).1 = .ok exAr) ∧
    (exAr.recoveryToken = exA.recoveryToken ∧
     exAr.recoveryTokenExpiryAt = exA.recoveryTokenExpiryAt) := by
  refine ⟨rfl, ?_, rfl, rfl, ?_⟩
  · exact (C1_confirm_clears_passwordReset_retains 5 "a@x.com" "123456" "np1"
      "654321" [exA] none).1 exAc rfl
  · exact (C1_confirm_clears_passwordReset_retains 5 "a@x.com" "123456" "np1"
      "654321" [exA] none).2 exA exAr rfl rfl

/-! Claim C2. -/

theorem registerDoc_password (tl now : Int) (tok : String) (cp : Bool)
    (profile : Account) :
    (registerDoc tl now tok cp profile).password = Utils.hash profile.password := by
  unfold registerDoc generateConfirmationToken
  by_cases h1 : cp <;> by_cases h2 : profile.autoConfirm <;> simp [h1, h2]

theorem confirmInstrDoc_password (tl now : Int) (tok : String) (a : Account) :
    (confirmInstrDoc tl now tok a).password = a.password := by
  unfold confirmInstrDoc generateConfirmationToken
  split <;> rfl

theorem confirmInstrDoc_id (tl now : Int) (tok : String) (a : Account) :
    (confirmInstrDoc tl now tok a).id = a.id := by
  unfold confirmInstrDoc generateConfirmationToken
  split <;> rfl

/-- C2: no operation persists a plain-text password: whenever `register`,
`changePassword` or `passwordReset` resolves, the account it resolves with
carries `Utils.hash` of the supplied password, which is never equal to the
plain-text value, and that account is what went into the resulting store. -/
theorem C2_passwords_never_stored_plain (tl now : Int) (tok np : String)
    (cp : Bool) (notify : Except JError Unit) :
    (∀ profile store u st,
        register tl now tok cp notify profile store = (.ok u, st) →
        u.password = Utils.hash profile.password ∧
        u.password ≠ profile.password ∧ u ∈ st) ∧
    (∀ a store u st, changePassword a np store = (.ok u, st) →
        u.password = Utils.hash np ∧ u.password ≠ np ∧
        st = saveAccount u store) ∧
    (∀ optA un rt store u st,
        passwordReset optA now un np rt store = (.ok u, st) →
        u.password = Utils.hash np ∧ u.password ≠ np ∧
        st = saveAccount u store) := by
  refine ⟨?_, ?_, ?_⟩
  · intro profile store u st h
    unfold register at h
    split at h
    · simp at h
    · split at h
      · unfold sendConfirmationInstructions at h
        split at h
        · simp only [Prod.mk.injEq] at h
          obtain ⟨h1, h2⟩ := h
          injection h1 with h1
          subst h1; subst h2
          refine ⟨registerDoc_password _ _ _ _ _, ?_, List.mem_append_right _ (by simp)⟩
          rw [registerDoc_password]
          exact hash_ne _
        · split at h
          · simp at h
          · simp only [Prod.mk.injEq] at h
            obtain ⟨h1, h2⟩ := h
            injection h1 with h1
            subst h1; subst h2
            refine ⟨?_, ?_, ?_⟩
            · rw [confirmInstrDoc_password, registerDoc_password]
            · rw [confirmInstrDoc_password, registerDoc_password]
              exact hash_ne _
            · exact saveAccount_mem_self _ _ _
                (List.mem_append_right _ (by simp)) (confirmInstrDoc_id _ _ _ _).symm
      · simp only [Prod.mk.injEq] at h
        obtain ⟨h1, h2⟩ := h
        injection h1 with h1
        subst h1; subst h2
        refine ⟨registerDoc_password _ _ _ _ _, ?_, List.mem_append_right _ (by simp)⟩
        rw [registerDoc_password]
        exact hash_ne _
  · intro a store u st h
    unfold changePassword at h
    split at h
    · simp at h
    · simp only [Prod.mk.injEq] at h
      obtain ⟨h1, h2⟩ := h
      injection h1 with h1
      subst h1
      exact ⟨rfl, hash_ne _, h2.symm⟩
  · intro optA un rt store u st h
    unfold passwordReset at h
    split at h
    · simp at h
    · split at h
      · simp at h
      · split at h
        · simp at h
        · simp only [Prod.mk.injEq] at h
          obtain ⟨h1, h2⟩ := h
          injection h1 with h1
          subst h1
          exact ⟨rfl, hash_ne _, h2.symm⟩

/-- C2 (witness): concrete runs: registering `exProfile`, changing the password
of `exB` and resetting the password of `exA` each store the bcrypt hash of the
supplied password, never the plain text. -/
theorem C2_witness :
    (let u := registerDoc 1 5 "123456" true exProfile
     u.password = Utils.hash exProfile.password ∧
     u.password ≠ exProfile.password ∧ u ∈ [u]) ∧
    (let v := { exB with password := Utils.hash "np1" }
     v.password = Utils.hash "np1" ∧ v.password ≠ "np1" ∧
     saveAccount v [exB] = saveAccount v [exB]) ∧
    (exAr.password = Utils.hash "np1" ∧ exAr.password ≠ "np1" ∧
     saveAccount exAr [exA] = saveAccount exAr [exA]) := by
  refine ⟨?_, ?_, ?_⟩
  · exact (C2_passwords_never_stored_plain 1 5 "123456" "np1" true (.ok ())).1
      exProfile [] _ _ rfl
  · exact (C2_passwords_never_stored_plain 1 5 "123456" "np1" true (.ok ())).2.1
      exB [exB] _ _ rfl
  · exact (C2_passwords_never_stored_plain 1 5 "123456" "np1" true (.ok ())).2.2
      none "a@x.com" "654321" [exA] _ _ rfl

/-! Claim C3. -/

/-- C3: token acceptance is a regex match, not string equality: any plain
pattern occurring as a substring of the stored code passes `tokenMatch`; the
token check inside `Confirmable.confirm` fails exactly when the case-insensitive
regex test `tokenMatchOpt` fails against the stored `confirmationToken`; and the
account selected by the regex lookup of `Recoverable.passwordReset` always has a
recovery token that the supplied token regex-matches (in particular, equality
is not required). -/
theorem C3_token_acceptance_is_regex_match :
    (∀ (p s : String) (pre post : List Char),
        s.toList = pre ++ p.toList ++ post → tokenMatch p s = true) ∧
    (∀ (now : Int) (u t : String) (store : List Account) (a : Account),
        u ≠ "" → t ≠ "" → confirmFindOne u store = some a →
        ((confirm now u t store).1 = .error ⟨400, "Invalid confirmation token"⟩
          ↔ tokenMatchOpt t a.confirmationToken = false)) ∧
    (∀ (aliases : List String) (u rt : String) (store : List Account) (a : Account),
        recoveryFindOne aliases u rt store = some a →
        tokenMatchOpt rt a.recoveryToken = true) := by
  refine ⟨tokenMatch_of_substr, ?_, ?_⟩
  · intro now u t store a hu ht hfind
    unfold confirm
    rw [if_neg (by simp [hu, ht]), hfind]
    simp only []
    constructor
    · intro h
      by_contra hm
      rw [Bool.not_eq_false] at hm
      rw [if_neg (by simp [hm])] at h
      split at h
      · exact absurd (congrArg JError.message (Except.error.inj h)) (by decide)
      · exact Except.noConfusion h
    · intro hm
      rw [if_pos (by simp [hm])]
  · intro aliases u rt store a hfind
    unfold recoveryFindOne at hfind
    obtain ⟨o, ho, hid⟩ := List.exists_of_findSome?_eq_some hfind
    obtain ⟨f, _, hf⟩ := List.mem_map.mp ho
    rw [← hf] at hid
    simp only [id] at hid
    have h2 := List.find?_some hid
    rw [Bool.and_eq_true] at h2
    exact h2.2

/-- C3 (witness): concrete instances: the substring "345" of the stored code
"123456" is accepted; the non-matching token "999999" against `exA` yields the
invalid-token rejection exactly because the regex test fails; and the account
selected by the recovery lookup for token "654321" regex-matches it. -/
theorem C3_witness :
    (tokenMatch "345" "123456" = true) ∧
    (((confirm 5 "a@x.com" "999999" [exA]).1
        = .error ⟨400, "Invalid confirmation token"⟩
      ↔ tokenMatchOpt "999999" exA.confirmationToken = false)) ∧
    (tokenMatchOpt "654321" exA.recoveryToken = true) := by
  refine ⟨?_, ?_, ?_⟩
  · exact C3_token_acceptance_is_regex_match.1 "345" "123456"
      ['1', '2'] ['6'] rfl
  · exact C3_token_acceptance_is_regex_match.2.1 5 "a@x.com" "999999" [exA] exA
      (by decide) (by decide) rfl
  · exact C3_token_acceptance_is_regex_match.2.2 ["email"] "a@x.com" "654321"
      [exA] exA rfl

/-! Claim C5. -/

/-- C5: every failure of `authenticate`, `confirm` and `passwordReset` is a
plain error object with an HTTP-style status: 404 exactly on the not-found
lookups, 401 exactly when the confirmable logic blocks authentication (its only
message being "Unconfirmed account"), and 400 for the bad-input cases (missing
details, wrong password, invalid or expired token). -/
theorem C5_failures_carry_http_statuses (optA : Option (List String))
    (allow : Option Int) (now : Int) (u p t np rt : String)
    (store : List Account) (e : JError) :
    ((authenticate optA allow now u p store).1 = .error e →
        e ∈ [JError.mk 404 "User not found", JError.mk 401 "Unconfirmed account",
             JError.mk 400 "Invalid user password"]) ∧
    ((confirm now u t store).1 = .error e →
        e ∈ [JError.mk 400 "Invalid confirmation details",
             JError.mk 404 "User not found",
             JError.mk 400 "Invalid confirmation token",
             JError.mk 400 "Token has expired"]) ∧
    ((passwordReset optA now u np rt store).1 = .error e →
        e ∈ [JError.mk 400 "Invalid recovery details",
             JError.mk 404 "Recovery details does not match our records",
             JError.mk 400 "Recovery token expired"]) := by
  refine ⟨?_, ?_, ?_⟩
  · intro h
    unfold authenticate at h
    split at h
    · simp at h; subst h; simp
    next a _ =>
      split at h
      next hbm =>
        simp at h
        rcases blockMessage_cases allow now a with hc | hc
        · exact absurd hc hbm
        · rw [hc] at h; subst h; simp
      · split at h
        · simp at h
        · simp at h; subst h; simp
  · intro h
    unfold confirm at h
    split at h
    · simp at h; subst h; simp
    · split at h
      · simp at h; subst h; simp
      · split at h
        · simp at h; subst h; simp
        · split at h
          · simp at h; subst h; simp
          · simp at h
  · intro h
    unfold passwordReset at h
    split at h
    · simp at h; subst h; simp
    · split at h
      · simp at h; subst h; simp
      · split at h
        · simp at h; subst h; simp
        · simp at h

/-- C5 (witness): concrete failing runs: authentication on an empty store is a
404, confirmation with missing details is a 400, and password reset with a
missing username is a 400, each drawn from the listed error set. -/
theorem C5_witness :
    (JError.mk 404 "User not found"
      ∈ [JError.mk 404 "User not found", JError.mk 401 "Unconfirmed account",
         JError.mk 400 "Invalid user password"]) ∧
    (JError.mk 400 "Invalid confirmation details"
      ∈ [JError.mk 400 "Invalid confirmation details",
         JError.mk 404 "User not found",
         JError.mk 400 "Invalid confirmation token",
         JError.mk 400 "Token has expired"]) ∧
    (JError.mk 400 "Invalid recovery details"
      ∈ [JError.mk 400 "Invalid recovery details",
         JError.mk 404 "Recovery details does not match our records",
         JError.mk 400 "Recovery token expired"]) := by
  refine ⟨?_, ?_, ?_⟩
  · exact (C5_failures_carry_http_statuses none none 0 "u" "p" "t" "np" "rt" []
      (JError.mk 404 "User not found")).1 rfl
  · exact (C5_failures_carry_http_statuses none none 0 "" "p" "t" "np" "rt" []
      (JError.mk 400 "Invalid confirmation details")).2.1 rfl
  · exact (C5_failures_carry_http_statuses none none 0 "" "p" "t" "np" "rt" []
      (JError.mk 400 "Invalid recovery details")).2.2 rfl

/-! Claim C6. -/

/-- C6 (counterexample): the claim fails because the first-non-null selection
scans alias fields in order: with aliases `["email", "username"]`, the username
"bob@x.com" equals the username field of `exA` and "pwA" bcrypt-matches the
stored hash of `exA`, yet `authenticate` picks `exB` (whose e-mail is "bob@x.com")
first and rejects with 400 "Invalid user password" instead of resolving with
`exA`. -/
theorem C6_alias_shadowing_counterexample :
    ("username" ∈ effectiveAliases (some ["username"])) ∧
    (getField exA "username" = some "bob@x.com") ∧
    (Utils.compare "pwA" exA.password = true) ∧
    ((authenticate (some ["username"]) none 5 "bob@x.com" "pwA" [exA, exB]).1
       = .error ⟨400, "Invalid user password"⟩) := by
  exact ⟨by decide, rfl, by decide, rfl⟩

/-- C6 (amended): `authenticate` resolves with the account selected by the
first non-null alias lookup in alias order (e-mail first) whenever the
confirmable logic does not block it and the password bcrypt-matches that
stored hash of that account — an account matched only under a later alias can be
shadowed by a different account matched under an earlier one — and it rejects
with 404 "User not found" exactly when no alias field matches any account. -/
theorem C6_authenticate_first_match (optA : Option (List String))
    (allow : Option Int) (now : Int) (u p : String) (store : List Account) :
    (∀ a, findByAliases (effectiveAliases optA) u store = some a →
        blockMessage allow now a = "" →
        Utils.compare p a.password = true →
        authenticate optA allow now u p store = (.ok a, store)) ∧
    (findByAliases (effectiveAliases optA) u store = none →
        authenticate optA allow now u p store
          = (.error ⟨404, "User not found"⟩, store)) := by
  constructor
  · intro a hfind hbm hcmp
    unfold authenticate
    rw [hfind]
    simp only []
    rw [if_neg (by simp [hbm]), if_pos hcmp]
  · intro hfind
    unfold authenticate
    rw [hfind]

/-- C6 (witness): with the default alias list, `exA` is the first match for
its own e-mail and authenticates with "pwA"; an unknown username is a 404. -/
theorem C6_witness :
    (authenticate none none 5 "a@x.com" "pwA" [exA] = (.ok exA, [exA])) ∧
    (authenticate none none 5 "nobody" "pwA" [exA]
       = (.error ⟨404, "User not found"⟩, [exA])) := by
  constructor
  · exact (C6_authenticate_first_match none none 5 "a@x.com" "pwA" [exA]).1
      exA rfl rfl (by decide)
  · exact (C6_authenticate_first_match none none 5 "nobody" "pwA" [exA]).2 rfl

/-! Claim C7. -/

/-- C7: when the host notification callback rejects, the instance methods
`sendConfirmationInstructions` and `sendPasswordResetInstructions` reject with
that same error and the store is returned unchanged — in particular a
confirmation token regenerated earlier in the call is not persisted; `save` is
reached only when the notification resolves, and then persists exactly the
(possibly regenerated) document. -/
theorem C7_notification_failure_blocks_save (tl now : Int) (tok : String)
    (e : JError) (a : Account) (store : List Account) :
    (a.confirmedAt = none →
        sendConfirmationInstructions tl now tok (.error e) a store
          = (.error e, store)) ∧
    (a.recoveredAt = none →
        sendPasswordResetInstructions (.error e) a store = (.error e, store)) ∧
    (a.confirmedAt = none →
        sendConfirmationInstructions tl now tok (.ok ()) a store
          = (.ok (confirmInstrDoc tl now tok a),
             saveAccount (confirmInstrDoc tl now tok a) store)) ∧
    (a.recoveredAt = none →
        sendPasswordResetInstructions (.ok ()) a store
          = (.ok a, saveAccount a store)) := by
  refine ⟨?_, ?_, ?_, ?_⟩
  · intro hc
    unfold sendConfirmationInstructions
    rw [if_neg (by simp [hc])]
  · intro hr
    unfold sendPasswordResetInstructions
    rw [if_neg (by simp [hr])]
  · intro hc
    unfold sendConfirmationInstructions
    rw [if_neg (by simp [hc])]
  · intro hr
    unfold sendPasswordResetInstructions
    rw [if_neg (by simp [hr])]

/-- C7 (witness): on the unconfirmed, unrecovered account `exA`, a rejecting
notification leaves the one-account store untouched in both methods, and a
resolving notification saves the document. -/
theorem C7_witness :
    (sendConfirmationInstructions 1 5 "777777" (.error ⟨500, "boom"⟩) exA [exA]
       = (.error ⟨500, "boom"⟩, [exA])) ∧
    (sendPasswordResetInstructions (.error ⟨500, "boom"⟩) exA [exA]
       = (.error ⟨500, "boom"⟩, [exA])) ∧
    (sendPasswordResetInstructions (.ok ()) exA [exA]
       = (.ok exA, saveAccount exA [exA])) := by
  refine ⟨?_, ?_, ?_⟩
  · exact (C7_notification_failure_blocks_save 1 5 "777777" ⟨500, "boom"⟩ exA
      [exA]).1 rfl
  · exact (C7_notification_failure_blocks_save 1 5 "777777" ⟨500, "boom"⟩ exA
      [exA]).2.1 rfl
  · exact (C7_notification_failure_blocks_save 1 5 "777777" ⟨500, "boom"⟩ exA
      [exA]).2.2.2 rfl

/-! Claim C8. -/

/-- C8: unregistration is a soft delete touching one field: on the account the
criteria select, `unregister` sets `unregisteredAt` to the current date and
saves; every other field of that account is unchanged, the updated document is
still in the store, the store keeps its length (nothing is removed), and every
account with a different id is untouched. -/
theorem C8_unregister_soft_delete (now : Int) (criteria : Account → Bool)
    (store : List Account) (a : Account)
    (hfind : store.find? criteria = some a) :
    (unregister now criteria store
       = (.ok { a with unregisteredAt := some now },
          saveAccount { a with unregisteredAt := some now } store)) ∧
    (({ a with unregisteredAt := some now }).unregisteredAt = some now ∧
     ({ a with unregisteredAt := some now }).id = a.id ∧
     ({ a with unregisteredAt := some now }).email = a.email ∧
     ({ a with unregisteredAt := some now }).phoneNumber = a.phoneNumber ∧
     ({ a with unregisteredAt := some now }).password = a.password ∧
     ({ a with unregisteredAt := some now }).emailVerifiedAt = a.emailVerifiedAt ∧
     ({ a with unregisteredAt := some now }).phoneVerifiedAt = a.phoneVerifiedAt ∧
     ({ a with unregisteredAt := some now }).confirmationToken = a.confirmationToken ∧
     ({ a with unregisteredAt := some now }).confirmationTokenExpiryAt
        = a.confirmationTokenExpiryAt ∧
     ({ a with unregisteredAt := some now }).confirmedAt = a.confirmedAt ∧
     ({ a with unregisteredAt := some now }).confirmationSentAt = a.confirmationSentAt ∧
     ({ a with unregisteredAt := some now }).autoConfirm = a.autoConfirm ∧
     ({ a with unregisteredAt := some now }).recoveryToken = a.recoveryToken ∧
     ({ a with unregisteredAt := some now }).recoveryTokenExpiryAt
        = a.recoveryTokenExpiryAt ∧
     ({ a with unregisteredAt := some now }).recoverySentAt = a.recoverySentAt ∧
     ({ a with unregisteredAt := some now }).recoveredAt = a.recoveredAt ∧
     ({ a with unregisteredAt := some now }).registeredAt = a.registeredAt ∧
     ({ a with unregisteredAt := some now }).extra = a.extra) ∧
    ({ a with unregisteredAt := some now } ∈ (unregister now criteria store).2) ∧
    ((unregister now criteria store).2.length = store.length) ∧
    (∀ b ∈ store, b.id ≠ a.id → b ∈ (unregister now criteria store).2) := by
  have hmem : a ∈ store := List.mem_of_find?_eq_some hfind
  have hrun : unregister now criteria store
      = (.ok { a with unregisteredAt := some now },
         saveAccount { a with unregisteredAt := some now } store) := by
    unfold unregister
    rw [hfind]
  refine ⟨hrun, ?_, ?_, ?_, ?_⟩
  · exact ⟨rfl, rfl, rfl, rfl, rfl, rfl, rfl, rfl, rfl, rfl, rfl, rfl, rfl,
      rfl, rfl, rfl, rfl, rfl⟩
  · rw [hrun]
    exact saveAccount_mem_self _ a _ hmem rfl
  · rw [hrun]
    exact List.length_map _ _
  · intro b hb hbid
    rw [hrun]
    exact saveAccount_mem_other _ b _ hb hbid

/-- C8 (witness): unregistering id 1 from the two-account store stamps only
`unregisteredAt` on `exA`, keeps both documents, and leaves `exB` untouched. -/
theorem C8_witness :
    (unregister 5 (fun b => b.id == 1) [exA, exB]
       = (.ok { exA with unregisteredAt := some 5 },
          saveAccount { exA with unregisteredAt := some 5 } [exA, exB])) ∧
    ({ exA with unregisteredAt := some 5 }.password = exA.password) ∧
    ((unregister 5 (fun b => b.id == 1) [exA, exB]).2.length = 2) ∧
    (exB ∈ (unregister 5 (fun b => b.id == 1) [exA, exB]).2) := by
  have h := C8_unregister_soft_delete 5 (fun b => b.id == 1) [exA, exB] exA rfl
  refine ⟨h.1, h.2.1.2.2.2.2.1, h.2.2.2.1, ?_⟩
  exact h.2.2.2.2 exB (by simp) (by decide)

/-! Claim C9. -/

/-- C9: a supplied aliases option extends rather than replaces the default:
`deepmerge` concatenates arrays, so the effective alias list is "email"
followed by the supplied list; consequently `authenticate` and
`requestPasswordReset` always also attempt the e-mail lookup, an e-mail match
is the account the first-non-null selection picks, authentication on it cannot
be a 404, and the reset request proceeds with it. -/
theorem C9_aliases_extend_default (L : List String) (optA : Option (List String))
    (allow : Option Int) (tl now : Int) (tok u p : String)
    (notify : Except JError Unit) (store : List Account) :
    (effectiveAliases (some L) = "email" :: L) ∧
    (∀ a, store.find? (fun b => getField b "email" == some u) = some a →
        findByAliases (effectiveAliases optA) u store = some a) ∧
    (∀ a, store.find? (fun b => getField b "email" == some u) = some a →
        (authenticate optA allow now u p store).1
          ≠ .error ⟨404, "User not found"⟩) ∧
    (∀ a, store.find? (fun b => getField b "email" == some u) = some a →
        requestPasswordReset optA tl now tok notify u store
          = sendPasswordResetInstructions notify
              (generateRecoveryToken tl now tok a) store) := by
  have hsel : ∀ a, store.find? (fun b => getField b "email" == some u) = some a →
      findByAliases (effectiveAliases optA) u store = some a := by
    intro a h
    cases optA with
    | none => simp [findByAliases, effectiveAliases, h]
    | some l => simp [findByAliases, effectiveAliases, h]
  refine ⟨rfl, hsel, ?_, ?_⟩
  · intro a h
    unfold authenticate
    rw [hsel a h]
    simp only []
    split
    · simp
    · split <;> simp
  · intro a h
    unfold requestPasswordReset
    rw [hsel a h]

/-- C9 (witness): with supplied aliases ["username"], the effective list is
["email", "username"]; the e-mail match `exB` for "bob@x.com" is the selected
account, authentication on it is not a 404, and the reset request proceeds
with the regenerated document of `exB`. -/
theorem C9_witness :
    (effectiveAliases (some ["username"]) = ["email", "username"]) ∧
    (findByAliases (effectiveAliases (some ["username"])) "bob@x.com" [exA, exB]
       = some exB) ∧
    ((authenticate (some ["username"]) none 5 "bob@x.com" "pwB" [exA, exB]).1
       ≠ .error ⟨404, "User not found"⟩) ∧
    (requestPasswordReset (some ["username"]) 1 5 "999999" (.ok ()) "bob@x.com"
        [exA, exB]
       = sendPasswordResetInstructions (.ok ())
           (generateRecoveryToken 1 5 "999999" exB) [exA, exB]) := by
  have h := C9_aliases_extend_default ["username"] (some ["username"]) none 1 5
    "999999" "bob@x.com" "pwB" (.ok ()) [exA, exB]
  exact ⟨h.1, h.2.1 exB rfl, h.2.2.1 exB rfl, h.2.2.2 exB rfl⟩

/-! Claim C10. -/

/-- C10: for an unconfirmed account, authentication is blocked with message
"Unconfirmed account" exactly when `allow_unconfirmed_access_for` is 0 or the
day difference between now and `confirmationSentAt` exceeds it; since
`Utils.daysDiff` is 0 when a date is null, an unconfirmed account with
`confirmationSentAt` null is never blocked when the allowance is positive. -/
theorem C10_unconfirmed_block (allow now : Int) (a : Account)
    (hun : a.confirmedAt = none) :
    ((confirmableBlockAuthenticationMessage allow now a = "Unconfirmed account")
       ↔ (allow = 0 ∨ Utils.daysDiff (some now) a.confirmationSentAt > allow)) ∧
    (a.confirmationSentAt = none → 0 < allow →
        confirmableBlockAuthenticationMessage allow now a = "") := by
  constructor
  · unfold confirmableBlockAuthenticationMessage
    rw [if_neg (by simp [hun])]
    by_cases h0 : allow = 0
    · rw [if_pos (by simp [h0])]
      exact iff_of_true rfl (Or.inl h0)
    · rw [if_neg (by simp [h0])]
      by_cases hd : Utils.daysDiff (some now) a.confirmationSentAt > allow
      · rw [if_pos hd]
        exact iff_of_true rfl (Or.inr hd)
      · rw [if_neg hd]
        apply iff_of_false (by decide)
        rintro (h | h)
        · exact h0 h
        · exact hd h
  · intro hs hpos
    unfold confirmableBlockAuthenticationMessage
    rw [if_neg (by simp [hun]), if_neg (by simp; omega),
        if_neg (by rw [hs]; unfold Utils.daysDiff; simp; omega)]

/-- C10 (witness): the unconfirmed account `exProfile` has a null
`confirmationSentAt`; with a positive allowance of 2 days it is not blocked,
and the block condition is exactly the disjunction of the theorem. -/
theorem C10_witness :
    (confirmableBlockAuthenticationMessage 2 5 exProfile = "") ∧
    ((confirmableBlockAuthenticationMessage 2 5 exProfile = "Unconfirmed account")
       ↔ ((2 : Int) = 0
           ∨ Utils.daysDiff (some 5) exProfile.confirmationSentAt > 2)) := by
  constructor
  · exact (C10_unconfirmed_block 2 5 exProfile rfl).2 rfl (by decide)
  · exact (C10_unconfirmed_block 2 5 exProfile rfl).1

/-! Claim C4. -/

/-- C4: expiry timestamps gate token validity: once the earlier guards pass
(inputs present, account found, token matching), if the stored expiry is not
strictly after `now` — including when it is null, since `Utils.isAfter` is
false on a null date — `confirm` rejects with 400 "Token has expired" and
`passwordReset` rejects with 400 "Recovery token expired", and in both cases
the store is returned unchanged (nothing is saved). -/
theorem C4_expiry_gates_validity (now : Int) (u t np rt : String)
    (store : List Account) (optA : Option (List String)) (a b : Account) :
    (u ≠ "" → t ≠ "" → confirmFindOne u store = some a →
        tokenMatchOpt t a.confirmationToken = true →
        Utils.isAfter now a.confirmationTokenExpiryAt = false →
        confirm now u t store = (.error ⟨400, "Token has expired"⟩, store)) ∧
    (u ≠ "" → np ≠ "" → rt ≠ "" →
        recoveryFindOne (effectiveAliases optA) u rt store = some b →
        Utils.isAfter now b.recoveryTokenExpiryAt = false →
        passwordReset optA now u np rt store
          = (.error ⟨400, "Recovery token expired"⟩, store)) := by
  constructor
  · intro hu ht hfind hm hexp
    unfold confirm
    rw [if_neg (by simp [hu, ht]), hfind]
    simp only []
    rw [if_neg (by simp [hm]), if_pos (by simp [hexp])]
  · intro hu hnp hrt hfind hexp
    unfold passwordReset
    rw [if_neg (by simp [hu, hnp, hrt]), hfind]
    simp only []
    rw [if_pos (by simp [hexp])]

/-- C4 (witness): at time 5, `exExpired` has a matching confirmation token
whose expiry is null and a recovery token whose expiry (3) has passed: both
operations reject with the expiry error and leave the store unchanged. -/
theorem C4_witness :
    (confirm 5 "e@x.com" "111111" [exExpired]
       = (.error ⟨400, "Token has expired"⟩, [exExpired])) ∧
    (passwordReset none 5 "e@x.com" "np2" "222222" [exExpired]
       = (.error ⟨400, "Recovery token expired"⟩, [exExpired])) := by
  constructor
  · exact (C4_expiry_gates_validity 5 "e@x.com" "111111" "np2" "222222"
      [exExpired] none exExpired exExpired).1
      (by decide) (by decide) rfl (by decide) rfl
  · exact (C4_expiry_gates_validity 5 "e@x.com" "111111" "np2" "222222"
      [exExpired] none exExpired exExpired).2
      (by decide) (by decide) (by decide) rfl rfl
